import Mathlib

/-!
Verification development for the minzhengbu credential-bridging service
(src/src/main.rs). The service completes an OAuth2 code-for-token exchange,
holds the token bundle in an in-memory map under a random 20-character
handle, links the handle to a Telegram identity by persisting the bundle
into redis, and serves a secret-gated lookup of the persisted record.

The embedding below translates the request handlers into pure Lean
functions. External effects are made explicit parameters: the identity
provider's response body is an input string, the random source is a
function `Nat → Fin 62`, the redis connection availability and the
success of the redis SET are booleans, and the two stores are association
lists threaded through the handlers.
-/

namespace Minzhengbu

/-- The two HTTP status codes the handlers produce on failure paths:
`StatusCode::NOT_FOUND` and `StatusCode::INTERNAL_SERVER_ERROR`. -/
inductive StatusCode where
  | NOT_FOUND
  | INTERNAL_SERVER_ERROR
  deriving DecidableEq, Repr

/-- The token bundle, mirroring struct `CallbackSecondLoginArgs` in
main.rs (fields in declaration order). The two numeric fields are `i64`
in the source; they are embedded as `Int` (parsing enforces the `i64`
range, see `parseI64`). -/
structure CallbackSecondLoginArgs where
  access_token : String
  expires_in : Int
  refresh_token : String
  refresh_token_expires_in : Int
  scope : String
  token_type : String
  deriving DecidableEq, Repr

/-- Rust `str::split(sep)` on a single-character separator: splits into
the (possibly empty) segments between occurrences of `sep`. The empty
input yields one empty segment, exactly as in Rust. -/
def splitChar (sep : Char) : List Char → List (List Char)
  | [] => [[]]
  | c :: t =>
    if c = sep then [] :: splitChar sep t
    else
      match splitChar sep t with
      | h :: r => (c :: h) :: r
      | [] => [[c]]

/-- One iteration of the loop body of `querify` in main.rs: split the
segment on `=`, keep the first two pieces as a key/value pair
(`it.take(2)`), and drop the segment when there is no `=` at all. -/
def querifyPair (pair : List Char) : Option (String × String) :=
  match splitChar '=' pair with
  | k :: v :: _ => some (String.mk k, String.mk v)
  | _ => none

/-- `querify` on the character list of the body. -/
def querifyL (s : List Char) : List (String × String) :=
  (splitChar '&' s).filterMap querifyPair

/-- `fn querify(string: &str) -> Vec<(&str, &str)>` from main.rs:
split the body on `&`, then split each segment on `=` keeping the first
two pieces; segments without `=` are silently dropped. -/
def querify (s : String) : List (String × String) :=
  querifyL s.toList

/-- The six mutable `Option` locals of `login` in main.rs
(`access_token`, `expires_in`, ... before the loop, all `None`). -/
structure FieldAcc where
  access_token : Option String := none
  expires_in : Option String := none
  refresh_token : Option String := none
  refresh_token_expires_in : Option String := none
  scope : Option String := none
  token_type : Option String := none
  deriving DecidableEq, Repr

/-- The body of the `for (k, v) in map` loop of `login`: assign the
value to the matching local, and skip (after logging) every
unrecognized key. -/
def applyPair (acc : FieldAcc) : String × String → FieldAcc
  | (k, v) =>
    if k = "access_token" then { acc with access_token := some v }
    else if k = "expires_in" then { acc with expires_in := some v }
    else if k = "refresh_token" then { acc with refresh_token := some v }
    else if k = "refresh_token_expires_in" then { acc with refresh_token_expires_in := some v }
    else if k = "scope" then { acc with scope := some v }
    else if k = "token_type" then { acc with token_type := some v }
    else acc

/-- Running the whole `for (k, v) in map` loop of `login`. -/
def collectFields (l : List (String × String)) : FieldAcc :=
  l.foldl applyPair {}

/-- Digit run of Rust's integer parsing: at least one ASCII digit,
decimal value. -/
def parseDigits (l : List Char) : Option Nat :=
  if l = [] then none
  else if l.all Char.isDigit then
    some (l.foldl (fun a d => a * 10 + (d.toNat - 48)) 0)
  else none

/-- Rust `str::parse::<i64>()`: optional `+`/`-` sign, then one or more
decimal digits, rejected when the value falls outside the `i64` range. -/
def parseI64 (s : String) : Option Int :=
  match s.toList with
  | '+' :: rest =>
    (parseDigits rest).bind fun n =>
      if (n : Int) ≤ 2 ^ 63 - 1 then some (n : Int) else none
  | '-' :: rest =>
    (parseDigits rest).bind fun n =>
      if (n : Int) ≤ 2 ^ 63 then some (-(n : Int)) else none
  | l =>
    (parseDigits l).bind fun n =>
      if (n : Int) ≤ 2 ^ 63 - 1 then some (n : Int) else none

/-- The parsing stage of `login` in main.rs (lines 147-193): run
`querify`, replay the key loop, then require all six fields and parse
the two numeric ones; any absence or parse failure is an error (the
source maps each to `INTERNAL_SERVER_ERROR`, here `none`). -/
def loginParse (body : String) : Option CallbackSecondLoginArgs :=
  let acc := collectFields (querify body)
  match acc.access_token, acc.expires_in, acc.refresh_token,
        acc.refresh_token_expires_in, acc.scope, acc.token_type with
  | some a, some e, some r, some re, some sc, some t =>
    match parseI64 e, parseI64 re with
    | some ei, some rei =>
      some { access_token := a, expires_in := ei, refresh_token := r,
             refresh_token_expires_in := rei, scope := sc, token_type := t }
    | _, _ => none
  | _, _, _, _, _, _ => none

/-- The byte table of rand's `Alphanumeric` distribution: 26 uppercase
letters, 26 lowercase letters, 10 digits. -/
def alphanumericTable : List Char :=
  "ABCDEFGHIJKLMNOPQRSTUVWXYZabcdefghijklmnopqrstuvwxyz0123456789".toList

/-- The handle generator inside `login`:
`rng.sample_iter(&Alphanumeric).take(20).map(char::from).collect()`.
The random source is abstracted as a function giving, for each of the
20 positions, an index into the 62-symbol table. -/
def genHandle (f : Nat → Fin 62) : String :=
  String.mk ((List.range 20).map fun i =>
    alphanumericTable.get (Fin.cast (by decide) (f i)))

/-- The ephemeral handle store `TEMP_MAP : DashMap<String,
CallbackSecondLoginArgs>` as an association list with at most the
last-inserted binding visible per key. -/
abbrev TempMap := List (String × CallbackSecondLoginArgs)

/-- `TEMP_MAP.get(&k)` -/
def mapGet (m : TempMap) (k : String) : Option CallbackSecondLoginArgs :=
  (m.find? fun p => p.1 == k).map (·.2)

/-- `TEMP_MAP.insert(k, v)` -/
def mapInsert (m : TempMap) (k : String) (v : CallbackSecondLoginArgs) : TempMap :=
  (k, v) :: m.filter fun p => p.1 != k

/-- `TEMP_MAP.remove(&k)` -/
def mapRemove (m : TempMap) (k : String) : TempMap :=
  m.filter fun p => p.1 != k

/-- The redis database as a key-value association list. -/
abbrev RedisStore := List (String × String)

/-- `conn.set(k, v)` -/
def redisSet (m : RedisStore) (k v : String) : RedisStore :=
  (k, v) :: m.filter fun p => p.1 != k

/-- `conn.get(k)`: `none` models the nil reply for a missing key, which
the source's `Result<String, RedisError>` turns into an error. -/
def redisGet (m : RedisStore) (k : String) : Option String :=
  (m.find? fun p => p.1 == k).map (·.2)

/-- serde_json string escaping for one character: quote, backslash and
control characters are escaped, everything else is passed through. -/
def escapeJsonChar (c : Char) : List Char :=
  if c = '"' then ['\\', '"']
  else if c = '\\' then ['\\', '\\']
  else if c.toNat = 8 then ['\\', 'b']
  else if c.toNat = 9 then ['\\', 't']
  else if c.toNat = 10 then ['\\', 'n']
  else if c.toNat = 12 then ['\\', 'f']
  else if c.toNat = 13 then ['\\', 'r']
  else if c.toNat < 32 then
    ['\\', 'u', '0', '0',
     (if c.toNat / 16 < 10 then Char.ofNat (48 + c.toNat / 16) else Char.ofNat (87 + c.toNat / 16)),
     (if c.toNat % 16 < 10 then Char.ofNat (48 + c.toNat % 16) else Char.ofNat (87 + c.toNat % 16))]
  else [c]

/-- serde_json string escaping. -/
def escapeJson (s : String) : String :=
  String.mk (s.toList.foldr (fun c acc => escapeJsonChar c ++ acc) [])

/-- `serde_json::to_string(access_info.value())`: the JSON object with
the six fields in struct declaration order. -/
def serializeBundle (b : CallbackSecondLoginArgs) : String :=
  "\x7b\"access_token\":\"" ++ escapeJson b.access_token
    ++ "\",\"expires_in\":" ++ toString b.expires_in
    ++ ",\"refresh_token\":\"" ++ escapeJson b.refresh_token
    ++ "\",\"refresh_token_expires_in\":" ++ toString b.refresh_token_expires_in
    ++ ",\"scope\":\"" ++ escapeJson b.scope
    ++ "\",\"token_type\":\"" ++ escapeJson b.token_type ++ "\"\x7d"

/-- Joint state of the two stores a linking request touches. -/
structure LinkState where
  temp : TempMap
  redis : RedisStore
  deriving Repr

/-- Response and post-state of one `login_from_telegram` request. -/
structure LinkOutcome where
  response : Except StatusCode String
  state : LinkState
  deriving Repr

/-- `async fn login_from_telegram` from main.rs: look the handle `rid`
up in `TEMP_MAP` (absent ⇒ `NOT_FOUND`), take the redis connection
(unavailable ⇒ `INTERNAL_SERVER_ERROR`), serialize the bundle, `SET` it
under `telegram_id` (failure ⇒ `INTERNAL_SERVER_ERROR`), and only then
remove the handle from `TEMP_MAP`. `connAvailable` models
`DB_CONN.get()` being populated, `setOk` the success of the redis
write. -/
def login_from_telegram (telegram_id rid : String) (st : LinkState)
    (connAvailable setOk : Bool) : LinkOutcome :=
  match mapGet st.temp rid with
  | none => ⟨.error .NOT_FOUND, st⟩
  | some access_info =>
    if connAvailable = false then ⟨.error .INTERNAL_SERVER_ERROR, st⟩
    else
      let s := serializeBundle access_info
      if setOk = false then ⟨.error .INTERNAL_SERVER_ERROR, st⟩
      else ⟨.ok "Successfully login",
            ⟨mapRemove st.temp rid, redisSet st.redis telegram_id s⟩⟩

/-- Response and post-state of one `login` request (the ephemeral store
is the only state it touches). -/
structure LoginOutcome where
  response : Except StatusCode String
  temp : TempMap
  deriving Repr

/-- `async fn login` from main.rs, after the outbound POST: `body` is
the provider's response text, `f` the random source. On a parse failure
the handler returns `INTERNAL_SERVER_ERROR` before any handle is
generated or inserted; on success it inserts the bundle under a fresh
handle and returns the Telegram hand-off link containing it. -/
def login (body : String) (f : Nat → Fin 62) (temp : TempMap) : LoginOutcome :=
  match loginParse body with
  | none => ⟨.error .INTERNAL_SERVER_ERROR, temp⟩
  | some login_args =>
    let s := genHandle f
    ⟨.ok ("<a href=\"https://t.me/aosc_buildit_bot?start=" ++ s ++ "\">Hit me!</a>"),
     mapInsert temp s login_args⟩

/-- `async fn get_token` from main.rs: compare the `secret` header
(absent or non-UTF-8 ⇒ `none`) with the configured secret; any mismatch
or absence is rejected with `INTERNAL_SERVER_ERROR` before the store is
consulted. With the right secret, an unavailable connection and a
missing key are also both mapped to `INTERNAL_SERVER_ERROR`. -/
def get_token (id : String) (secretHeader : Option String) (secretCfg : String)
    (connAvailable : Bool) (redis : RedisStore) : Except StatusCode String :=
  if (secretHeader.map fun x => x != secretCfg).getD true then
    .error .INTERNAL_SERVER_ERROR
  else if connAvailable = false then
    .error .INTERNAL_SERVER_ERROR
  else
    match redisGet redis id with
    | some s => .ok s
    | none => .error .INTERNAL_SERVER_ERROR

/-- Last-occurrence lookup of a key in the querify output: the value of
the final pair carrying key `k`, if any. Used to state, declaratively,
what the imperative key loop of `login` computes. -/
def lookupLast (l : List (String × String)) (k : String) : Option String :=
  match l with
  | [] => none
  | (k', v) :: t =>
    match lookupLast t k with
    | some r => some r
    | none => if k' == k then some v else none

/-- Left-biased choice on options, the shape in which the key loop's
result is related to `lookupLast`. -/
def optOr (a b : Option String) : Option String :=
  match a with
  | some v => some v
  | none => b

/-- `k=v` pairs joined by `&`, the form encoding of the provider's
historical token response. -/
def formEncode : List (String × String) → String
  | [] => ""
  | [kv] => kv.1 ++ "=" ++ kv.2
  | kv :: rest => kv.1 ++ "=" ++ kv.2 ++ "&" ++ formEncode rest

/-- A string usable as a form-encoded key or value: free of the two
separator characters. -/
def sepFree (s : String) : Prop :=
  '&' ∉ s.toList ∧ '=' ∉ s.toList

/-- Sample bundle used by concrete witnesses. -/
def sampleBundle : CallbackSecondLoginArgs :=
  ⟨"tok_1", 3600, "ref_1", 604800, "read", "bearer"⟩

/-! ## Lemmas about the split and the key loop -/

theorem splitChar_ne_nil (sep : Char) (l : List Char) : splitChar sep l ≠ [] := by
  induction l with
  | nil => simp [splitChar]
  | cons c t ih =>
    simp only [splitChar]
    split
    · simp
    · split
      · simp
      · simp

theorem splitChar_append (sep : Char) (a b : List Char) :
    splitChar sep (a ++ sep :: b) = splitChar sep a ++ splitChar sep b := by
  induction a with
  | nil => simp [splitChar]
  | cons c t ih =>
    by_cases h : c = sep
    · simp [splitChar, h, ih]
    · simp only [List.cons_append, splitChar, h, if_false]
      cases hs : splitChar sep t with
      | nil => exact absurd hs (splitChar_ne_nil sep t)
      | cons hh r =>
        simp only [List.append_eq]
        rw [ih, hs]
        simp

theorem splitChar_eq_single (sep : Char) (l : List Char) (h : sep ∉ l) :
    splitChar sep l = [l] := by
  induction l with
  | nil => rfl
  | cons c t ih =>
    have hc : ¬ c = sep := fun e => h (e ▸ List.mem_cons_self c t)
    have ht : sep ∉ t := fun m => h (List.mem_cons_of_mem c m)
    simp [splitChar, hc, ih ht]

theorem mem_of_mem_splitChar (sep : Char) (l t : List Char) (c : Char)
    (ht : t ∈ splitChar sep l) (hc : c ∈ t) : c ∈ l := by
  induction l generalizing t with
  | nil =>
    simp [splitChar] at ht
    subst ht
    simp at hc
  | cons d r ih =>
    by_cases hd : d = sep
    · rw [splitChar, if_pos hd] at ht
      rcases List.mem_cons.mp ht with h | h
      · subst h; simp at hc
      · exact List.mem_cons_of_mem _ (ih _ h hc)
    · rw [splitChar, if_neg hd] at ht
      cases hs : splitChar sep r with
      | nil => exact absurd hs (splitChar_ne_nil sep r)
      | cons hh rr =>
        rw [hs] at ht
        rcases List.mem_cons.mp ht with h | h
        · subst h
          rcases List.mem_cons.mp hc with h' | h'
          · exact h' ▸ List.mem_cons_self d r
          · have : hh ∈ splitChar sep r := hs ▸ List.mem_cons_self hh rr
            exact List.mem_cons_of_mem _ (ih hh this h')
        · have : t ∈ splitChar sep r := hs ▸ List.mem_cons_of_mem hh h
          exact List.mem_cons_of_mem _ (ih t this hc)

theorem optOr_some (v : String) (b : Option String) : optOr (some v) b = some v := rfl

theorem optOr_none (b : Option String) : optOr none b = b := rfl

theorem optOr_none_right (a : Option String) : optOr a none = a := by
  cases a <;> rfl

theorem optOr_assoc (a b c : Option String) :
    optOr (optOr a b) c = optOr a (optOr b c) := by
  cases a <;> cases b <;> rfl

theorem lookupLast_cons (k' v k : String) (t : List (String × String)) :
    lookupLast ((k', v) :: t) k =
      optOr (lookupLast t k) (if k' == k then some v else none) := by
  rw [lookupLast]
  cases lookupLast t k <;> rfl

theorem applyPair_access_token (acc : FieldAcc) (k v : String) :
    (applyPair acc (k, v)).access_token =
      if k = "access_token" then some v else acc.access_token := by
  simp only [applyPair]
  split_ifs <;> simp_all

theorem applyPair_expires_in (acc : FieldAcc) (k v : String) :
    (applyPair acc (k, v)).expires_in =
      if k = "expires_in" then some v else acc.expires_in := by
  simp only [applyPair]
  split_ifs <;> simp_all

theorem applyPair_refresh_token (acc : FieldAcc) (k v : String) :
    (applyPair acc (k, v)).refresh_token =
      if k = "refresh_token" then some v else acc.refresh_token := by
  simp only [applyPair]
  split_ifs <;> simp_all

theorem applyPair_refresh_token_expires_in (acc : FieldAcc) (k v : String) :
    (applyPair acc (k, v)).refresh_token_expires_in =
      if k = "refresh_token_expires_in" then some v else acc.refresh_token_expires_in := by
  simp only [applyPair]
  split_ifs <;> simp_all

theorem applyPair_scope (acc : FieldAcc) (k v : String) :
    (applyPair acc (k, v)).scope =
      if k = "scope" then some v else acc.scope := by
  simp only [applyPair]
  split_ifs <;> simp_all

theorem applyPair_token_type (acc : FieldAcc) (k v : String) :
    (applyPair acc (k, v)).token_type =
      if k = "token_type" then some v else acc.token_type := by
  simp only [applyPair]
  split_ifs <;> simp_all

theorem foldl_applyPair_access_token (l : List (String × String)) (acc : FieldAcc) :
    (l.foldl applyPair acc).access_token =
      optOr (lookupLast l "access_token") acc.access_token := by
  induction l generalizing acc with
  | nil => rfl
  | cons p t ih =>
    obtain ⟨k, v⟩ := p
    rw [List.foldl_cons, ih, lookupLast_cons, optOr_assoc]
    have h2 : (applyPair acc (k, v)).access_token =
        optOr (if k == "access_token" then some v else none) acc.access_token := by
      rw [applyPair_access_token]
      by_cases h : k = "access_token" <;> simp [h, optOr]
    rw [h2]

theorem foldl_applyPair_expires_in (l : List (String × String)) (acc : FieldAcc) :
    (l.foldl applyPair acc).expires_in =
      optOr (lookupLast l "expires_in") acc.expires_in := by
  induction l generalizing acc with
  | nil => rfl
  | cons p t ih =>
    obtain ⟨k, v⟩ := p
    rw [List.foldl_cons, ih, lookupLast_cons, optOr_assoc]
    have h2 : (applyPair acc (k, v)).expires_in =
        optOr (if k == "expires_in" then some v else none) acc.expires_in := by
      rw [applyPair_expires_in]
      by_cases h : k = "expires_in" <;> simp [h, optOr]
    rw [h2]

theorem foldl_applyPair_refresh_token (l : List (String × String)) (acc : FieldAcc) :
    (l.foldl applyPair acc).refresh_token =
      optOr (lookupLast l "refresh_token") acc.refresh_token := by
  induction l generalizing acc with
  | nil => rfl
  | cons p t ih =>
    obtain ⟨k, v⟩ := p
    rw [List.foldl_cons, ih, lookupLast_cons, optOr_assoc]
    have h2 : (applyPair acc (k, v)).refresh_token =
        optOr (if k == "refresh_token" then some v else none) acc.refresh_token := by
      rw [applyPair_refresh_token]
      by_cases h : k = "refresh_token" <;> simp [h, optOr]
    rw [h2]

theorem foldl_applyPair_refresh_token_expires_in (l : List (String × String)) (acc : FieldAcc) :
    (l.foldl applyPair acc).refresh_token_expires_in =
      optOr (lookupLast l "refresh_token_expires_in") acc.refresh_token_expires_in := by
  induction l generalizing acc with
  | nil => rfl
  | cons p t ih =>
    obtain ⟨k, v⟩ := p
    rw [List.foldl_cons, ih, lookupLast_cons, optOr_assoc]
    have h2 : (applyPair acc (k, v)).refresh_token_expires_in =
        optOr (if k == "refresh_token_expires_in" then some v else none)
          acc.refresh_token_expires_in := by
      rw [applyPair_refresh_token_expires_in]
      by_cases h : k = "refresh_token_expires_in" <;> simp [h, optOr]
    rw [h2]

theorem foldl_applyPair_scope (l : List (String × String)) (acc : FieldAcc) :
    (l.foldl applyPair acc).scope =
      optOr (lookupLast l "scope") acc.scope := by
  induction l generalizing acc with
  | nil => rfl
  | cons p t ih =>
    obtain ⟨k, v⟩ := p
    rw [List.foldl_cons, ih, lookupLast_cons, optOr_assoc]
    have h2 : (applyPair acc (k, v)).scope =
        optOr (if k == "scope" then some v else none) acc.scope := by
      rw [applyPair_scope]
      by_cases h : k = "scope" <;> simp [h, optOr]
    rw [h2]

theorem foldl_applyPair_token_type (l : List (String × String)) (acc : FieldAcc) :
    (l.foldl applyPair acc).token_type =
      optOr (lookupLast l "token_type") acc.token_type := by
  induction l generalizing acc with
  | nil => rfl
  | cons p t ih =>
    obtain ⟨k, v⟩ := p
    rw [List.foldl_cons, ih, lookupLast_cons, optOr_assoc]
    have h2 : (applyPair acc (k, v)).token_type =
        optOr (if k == "token_type" then some v else none) acc.token_type := by
      rw [applyPair_token_type]
      by_cases h : k = "token_type" <;> simp [h, optOr]
    rw [h2]

theorem collectFields_access_token (l : List (String × String)) :
    (collectFields l).access_token = lookupLast l "access_token" := by
  rw [collectFields, foldl_applyPair_access_token]
  exact optOr_none_right _

theorem collectFields_expires_in (l : List (String × String)) :
    (collectFields l).expires_in = lookupLast l "expires_in" := by
  rw [collectFields, foldl_applyPair_expires_in]
  exact optOr_none_right _

theorem collectFields_refresh_token (l : List (String × String)) :
    (collectFields l).refresh_token = lookupLast l "refresh_token" := by
  rw [collectFields, foldl_applyPair_refresh_token]
  exact optOr_none_right _

theorem collectFields_refresh_token_expires_in (l : List (String × String)) :
    (collectFields l).refresh_token_expires_in = lookupLast l "refresh_token_expires_in" := by
  rw [collectFields, foldl_applyPair_refresh_token_expires_in]
  exact optOr_none_right _

theorem collectFields_scope (l : List (String × String)) :
    (collectFields l).scope = lookupLast l "scope" := by
  rw [collectFields, foldl_applyPair_scope]
  exact optOr_none_right _

theorem collectFields_token_type (l : List (String × String)) :
    (collectFields l).token_type = lookupLast l "token_type" := by
  rw [collectFields, foldl_applyPair_token_type]
  exact optOr_none_right _

/-- The parsing stage of `login`, characterized through the declarative
per-key last-occurrence lookup. -/
theorem loginParse_eq (s : String) :
    loginParse s =
      match lookupLast (querify s) "access_token", lookupLast (querify s) "expires_in",
            lookupLast (querify s) "refresh_token",
            lookupLast (querify s) "refresh_token_expires_in",
            lookupLast (querify s) "scope", lookupLast (querify s) "token_type" with
      | some a, some e, some r, some re, some sc, some t =>
        (match parseI64 e, parseI64 re with
         | some ei, some rei =>
           some { access_token := a, expires_in := ei, refresh_token := r,
                  refresh_token_expires_in := rei, scope := sc, token_type := t }
         | _, _ => none)
      | _, _, _, _, _, _ => none := by
  rw [loginParse]
  rw [collectFields_access_token, collectFields_expires_in, collectFields_refresh_token,
      collectFields_refresh_token_expires_in, collectFields_scope, collectFields_token_type]

theorem mk_toList (s : String) : String.mk s.toList = s := by
  cases s
  rfl

theorem length_mk (l : List Char) : (String.mk l).length = l.length := rfl

theorem toList_mk (l : List Char) : (String.mk l).toList = l := rfl

theorem toList_append (a b : String) : (a ++ b).toList = a.toList ++ b.toList :=
  String.data_append a b

theorem querifyPair_no_eq_char (t : List Char) (h : '=' ∉ t) : querifyPair t = none := by
  rw [querifyPair, splitChar_eq_single '=' t h]

theorem querifyPair_pair (k v : String) (hk : '=' ∉ k.toList) (hv : '=' ∉ v.toList) :
    querifyPair (k.toList ++ '=' :: v.toList) = some (k, v) := by
  rw [querifyPair, splitChar_append, splitChar_eq_single _ _ hk, splitChar_eq_single _ _ hv]
  simp [mk_toList]

theorem no_amp_pair (k v : String) (hk : '&' ∉ k.toList) (hv : '&' ∉ v.toList) :
    '&' ∉ k.toList ++ '=' :: v.toList := by
  intro hm
  rcases List.mem_append.mp hm with hm | hm
  · exact hk hm
  · rcases List.mem_cons.mp hm with hm | hm
    · exact absurd hm (by decide)
    · exact hv hm

theorem toList_pair (k v : String) :
    (k ++ "=" ++ v).toList = k.toList ++ '=' :: v.toList := by
  simp [toList_append]

/-- Round trip through the form encoding: `querify` recovers exactly the
encoded pairs when keys and values avoid the separators. -/
theorem querify_formEncode (ps : List (String × String))
    (h : ∀ p ∈ ps, sepFree p.1 ∧ sepFree p.2) :
    querify (formEncode ps) = ps := by
  induction ps with
  | nil => rfl
  | cons kv rest ih =>
    obtain ⟨k, v⟩ := kv
    obtain ⟨⟨hk1, hk2⟩, hv1, hv2⟩ := h (k, v) (List.mem_cons_self _ _)
    cases rest with
    | nil =>
      rw [formEncode, querify, querifyL, toList_pair,
          splitChar_eq_single _ _ (no_amp_pair k v hk1 hv1)]
      have hq : querifyPair (k.data ++ '=' :: v.data) = some (k, v) :=
        querifyPair_pair k v hk2 hv2
      simp [hq]
    | cons kv2 rest2 =>
      have hrest : ∀ p ∈ kv2 :: rest2, sepFree p.1 ∧ sepFree p.2 :=
        fun p hp => h p (List.mem_cons_of_mem _ hp)
      have hto : (k ++ "=" ++ v ++ "&" ++ formEncode (kv2 :: rest2)).toList
          = (k.toList ++ '=' :: v.toList) ++ '&' :: (formEncode (kv2 :: rest2)).toList := by
        simp [toList_append]
      rw [formEncode, querify, querifyL, hto, splitChar_append,
          splitChar_eq_single _ _ (no_amp_pair k v hk1 hv1)]
      have hq : querifyPair (k.data ++ '=' :: v.data) = some (k, v) :=
        querifyPair_pair k v hk2 hv2
      have ihq : List.filterMap querifyPair (splitChar '&' (formEncode (kv2 :: rest2)).data)
          = kv2 :: rest2 := ih hrest
      simp [hq, ihq]
      simp

theorem querify_no_eq_char (s : String) (h : '=' ∉ s.toList) : querify s = [] := by
  rw [querify, querifyL]
  rw [List.filterMap_eq_nil_iff]
  intro t ht
  apply querifyPair_no_eq_char
  intro hc
  exact h (mem_of_mem_splitChar '&' s.toList t '=' ht hc)

/-- A body free of the `=` character (any typical JSON object body, for
example) makes the form parser of `login` fail. -/
theorem loginParse_no_eq_char (s : String) (h : '=' ∉ s.toList) : loginParse s = none := by
  rw [loginParse_eq, querify_no_eq_char s h]
  rfl

/-- Dropping one separator-free, `=`-free segment does not change the
`querify` output. -/
theorem querify_drop_segment (s₁ t s₂ : String)
    (h1 : '&' ∉ t.toList) (h2 : '=' ∉ t.toList) :
    querify (s₁ ++ "&" ++ t ++ "&" ++ s₂) = querify (s₁ ++ "&" ++ s₂) := by
  rw [querify, querify, querifyL, querifyL]
  have e1 : (s₁ ++ "&" ++ t ++ "&" ++ s₂).toList
      = s₁.toList ++ '&' :: (t.toList ++ '&' :: s₂.toList) := by
    simp [toList_append]
  have e2 : (s₁ ++ "&" ++ s₂).toList = s₁.toList ++ '&' :: s₂.toList := by
    simp [toList_append]
  rw [e1, e2, splitChar_append, splitChar_append, splitChar_append,
      splitChar_eq_single _ _ h1]
  have hq : querifyPair t.data = none := querifyPair_no_eq_char t.toList h2
  simp [List.filterMap_append, hq]

theorem mapGet_mapRemove_self (m : TempMap) (k : String) :
    mapGet (mapRemove m k) k = none := by
  rw [mapGet, mapRemove]
  have hfind : (m.filter fun p => p.1 != k).find? (fun p => p.1 == k) = none := by
    rw [List.find?_eq_none]
    intro x hx
    have hx2 := (List.mem_filter.mp hx).2
    simp only [bne_iff_ne, ne_eq, decide_eq_true_eq] at hx2
    simp [hx2]
  rw [hfind]
  rfl

theorem parseI64_empty : parseI64 "" = none := rfl

/-! ## Claim theorems -/

/-- C6: for every form-encoded token-endpoint response in which all six
required keys are present (each field taking the value of its last
occurrence) and the two numeric fields parse as integers, `login` builds
a `CallbackSecondLoginArgs` with exactly those values; the body `s` may
contain arbitrary unknown keys, which are skipped without failure. -/
theorem C6_form_parse_exact (s a e r re sc t : String) (ei rei : Int)
    (ha : lookupLast (querify s) "access_token" = some a)
    (he : lookupLast (querify s) "expires_in" = some e)
    (hr : lookupLast (querify s) "refresh_token" = some r)
    (hre : lookupLast (querify s) "refresh_token_expires_in" = some re)
    (hsc : lookupLast (querify s) "scope" = some sc)
    (ht : lookupLast (querify s) "token_type" = some t)
    (hpe : parseI64 e = some ei) (hpre : parseI64 re = some rei) :
    loginParse s = some { access_token := a, expires_in := ei, refresh_token := r,
                          refresh_token_expires_in := rei, scope := sc, token_type := t } := by
  rw [loginParse_eq, ha, he, hr, hre, hsc, ht]
  simp [hpe, hpre]

/-- Witness for C6 on a concrete body containing the unknown key `foo`. -/
theorem C6_witness :
    loginParse ("access_token=tok_1&expires_in=3600&foo=bar&refresh_token=ref_1&"
        ++ "refresh_token_expires_in=604800&scope=read&token_type=bearer")
      = some { access_token := "tok_1", expires_in := 3600, refresh_token := "ref_1",
               refresh_token_expires_in := 604800, scope := "read", token_type := "bearer" } :=
  C6_form_parse_exact _ "tok_1" "3600" "ref_1" "604800" "read" "bearer" 3600 604800
    (by decide) (by decide) (by decide) (by decide) (by decide) (by decide)
    (by decide) (by decide)

/-- A response missing one of the six required keys, or whose numeric
fields fail to parse, makes the parsing stage of `login` fail. -/
theorem loginParse_none_of_missing (body : String)
    (H : lookupLast (querify body) "access_token" = none ∨
         lookupLast (querify body) "refresh_token" = none ∨
         lookupLast (querify body) "scope" = none ∨
         lookupLast (querify body) "token_type" = none ∨
         (lookupLast (querify body) "expires_in").bind parseI64 = none ∨
         (lookupLast (querify body) "refresh_token_expires_in").bind parseI64 = none) :
    loginParse body = none := by
  rcases H with h | h | h | h | h | h
  · simp [loginParse_eq, h]
  · cases h1 : lookupLast (querify body) "access_token" <;>
    cases h2 : lookupLast (querify body) "expires_in" <;>
      simp [loginParse_eq, h1, h2, h]
  · cases h1 : lookupLast (querify body) "access_token" <;>
    cases h2 : lookupLast (querify body) "expires_in" <;>
    cases h3 : lookupLast (querify body) "refresh_token" <;>
    cases h4 : lookupLast (querify body) "refresh_token_expires_in" <;>
      simp [loginParse_eq, h1, h2, h3, h4, h]
  · cases h1 : lookupLast (querify body) "access_token" <;>
    cases h2 : lookupLast (querify body) "expires_in" <;>
    cases h3 : lookupLast (querify body) "refresh_token" <;>
    cases h4 : lookupLast (querify body) "refresh_token_expires_in" <;>
    cases h5 : lookupLast (querify body) "scope" <;>
      simp [loginParse_eq, h1, h2, h3, h4, h5, h]
  · cases h2 : lookupLast (querify body) "expires_in" with
    | none =>
      cases h1 : lookupLast (querify body) "access_token" <;>
        simp [loginParse_eq, h1, h2]
    | some e =>
      have hp : parseI64 e = none := by
        rw [h2] at h
        simpa using h
      cases h1 : lookupLast (querify body) "access_token" <;>
      cases h3 : lookupLast (querify body) "refresh_token" <;>
      cases h4 : lookupLast (querify body) "refresh_token_expires_in" <;>
      cases h5 : lookupLast (querify body) "scope" <;>
      cases h6 : lookupLast (querify body) "token_type" <;>
        simp [loginParse_eq, h1, h2, h3, h4, h5, h6, hp]
  · cases h4 : lookupLast (querify body) "refresh_token_expires_in" with
    | none =>
      cases h1 : lookupLast (querify body) "access_token" <;>
      cases h2 : lookupLast (querify body) "expires_in" <;>
      cases h3 : lookupLast (querify body) "refresh_token" <;>
        simp [loginParse_eq, h1, h2, h3, h4]
    | some re =>
      have hp : parseI64 re = none := by
        rw [h4] at h
        simpa using h
      cases h2 : lookupLast (querify body) "expires_in" with
      | none =>
        cases h1 : lookupLast (querify body) "access_token" <;>
          simp [loginParse_eq, h1, h2]
      | some e =>
        cases h1 : lookupLast (querify body) "access_token" <;>
        cases h3 : lookupLast (querify body) "refresh_token" <;>
        cases h5 : lookupLast (querify body) "scope" <;>
        cases h6 : lookupLast (querify body) "token_type" <;>
        cases hq : parseI64 e <;>
          simp [loginParse_eq, h1, h2, h3, h4, h5, h6, hp, hq]
/-- C7: a token-endpoint response missing any one of the six required
fields, or whose numeric fields fail integer parsing, makes the exchange
fail with an error, and no handle is generated or inserted into the
ephemeral handle store. -/
theorem C7_malformed_no_insert (body : String) (f : Nat → Fin 62) (temp : TempMap)
    (H : lookupLast (querify body) "access_token" = none ∨
         lookupLast (querify body) "refresh_token" = none ∨
         lookupLast (querify body) "scope" = none ∨
         lookupLast (querify body) "token_type" = none ∨
         (lookupLast (querify body) "expires_in").bind parseI64 = none ∨
         (lookupLast (querify body) "refresh_token_expires_in").bind parseI64 = none) :
    (login body f temp).response = Except.error StatusCode.INTERNAL_SERVER_ERROR ∧
    (login body f temp).temp = temp := by
  have hnone : loginParse body = none := loginParse_none_of_missing body H
  constructor
  · simp [login, hnone]
  · simp [login, hnone]

/-- Witness for C7 on a body carrying only `access_token`. -/
theorem C7_witness :
    (login "access_token=a" (fun _ => (0 : Fin 62)) []).response
        = Except.error StatusCode.INTERNAL_SERVER_ERROR ∧
    (login "access_token=a" (fun _ => (0 : Fin 62)) []).temp = [] :=
  C7_malformed_no_insert "access_token=a" (fun _ => (0 : Fin 62)) []
    (Or.inr (Or.inl (by decide)))

/-- C10: in the form-encoded parsing performed by `login`, a recognized
key occurring several times leaves the last occurrence in the field
accumulator (the key loop computes exactly the per-key last-occurrence
lookup on the `querify` output), and an `&`-separated segment containing
no `=` is silently dropped by `querify` rather than causing failure. -/
theorem C10_last_wins_and_drop :
    (∀ l : List (String × String),
      (collectFields l).access_token = lookupLast l "access_token" ∧
      (collectFields l).expires_in = lookupLast l "expires_in" ∧
      (collectFields l).refresh_token = lookupLast l "refresh_token" ∧
      (collectFields l).refresh_token_expires_in = lookupLast l "refresh_token_expires_in" ∧
      (collectFields l).scope = lookupLast l "scope" ∧
      (collectFields l).token_type = lookupLast l "token_type") ∧
    (∀ s₁ t s₂ : String, '&' ∉ t.toList → '=' ∉ t.toList →
      querify (s₁ ++ "&" ++ t ++ "&" ++ s₂) = querify (s₁ ++ "&" ++ s₂)) := by
  constructor
  · intro l
    exact ⟨collectFields_access_token l, collectFields_expires_in l,
           collectFields_refresh_token l, collectFields_refresh_token_expires_in l,
           collectFields_scope l, collectFields_token_type l⟩
  · intro s₁ t s₂ h1 h2
    exact querify_drop_segment s₁ t s₂ h1 h2

/-- Witness for C10: a duplicated `access_token` key keeps the second
value, and the `=`-free segment `junk` is dropped. -/
theorem C10_witness :
    (collectFields [("access_token", "v1"), ("access_token", "v2")]).access_token = some "v2" ∧
    querify "a=b&junk&c=d" = querify "a=b&c=d" := by
  constructor
  · rw [(C10_last_wins_and_drop.1 _).1]
    decide
  · exact C10_last_wins_and_drop.2 "a=b" "junk" "c=d" (by decide) (by decide)

set_option maxRecDepth 8192 in
/-- C1 counterexample: a structured-JSON token response carrying all six
required fields is not parsed by `login`: the exchange fails instead of
producing the bundle, so JSON is not a supported response shape. -/
theorem C1_counterexample :
    loginParse ("\x7b\"access_token\":\"tok_1\",\"expires_in\":3600,"
        ++ "\"refresh_token\":\"ref_1\",\"refresh_token_expires_in\":604800,"
        ++ "\"scope\":\"read\",\"token_type\":\"bearer\"\x7d") = none := by
  decide

/-- C1 (amended): `login` produces a bundle with the exact six field
values for every form-encoded response (any separator-free values with
parsable numeric fields), while a body containing no `=` character at
all — in particular any JSON object body — always fails to parse. -/
theorem C1_form_encoded_only (a e r re sc t : String) (ei rei : Int)
    (hca : sepFree a) (hce : sepFree e) (hcr : sepFree r) (hcre : sepFree re)
    (hcsc : sepFree sc) (hct : sepFree t)
    (hpe : parseI64 e = some ei) (hpre : parseI64 re = some rei) :
    loginParse (formEncode
        [("access_token", a), ("expires_in", e), ("refresh_token", r),
         ("refresh_token_expires_in", re), ("scope", sc), ("token_type", t)])
      = some { access_token := a, expires_in := ei, refresh_token := r,
               refresh_token_expires_in := rei, scope := sc, token_type := t } ∧
    ∀ s : String, '=' ∉ s.toList → loginParse s = none := by
  constructor
  · have hq : querify (formEncode
        [("access_token", a), ("expires_in", e), ("refresh_token", r),
         ("refresh_token_expires_in", re), ("scope", sc), ("token_type", t)])
        = [("access_token", a), ("expires_in", e), ("refresh_token", r),
           ("refresh_token_expires_in", re), ("scope", sc), ("token_type", t)] := by
      apply querify_formEncode
      intro p hp
      simp only [List.mem_cons, List.not_mem_nil, or_false] at hp
      rcases hp with h | h | h | h | h | h
      · subst h
        exact show sepFree "access_token" ∧ sepFree a from ⟨by constructor <;> decide, hca⟩
      · subst h
        exact show sepFree "expires_in" ∧ sepFree e from ⟨by constructor <;> decide, hce⟩
      · subst h
        exact show sepFree "refresh_token" ∧ sepFree r from ⟨by constructor <;> decide, hcr⟩
      · subst h
        exact show sepFree "refresh_token_expires_in" ∧ sepFree re
          from ⟨by constructor <;> decide, hcre⟩
      · subst h
        exact show sepFree "scope" ∧ sepFree sc from ⟨by constructor <;> decide, hcsc⟩
      · subst h
        exact show sepFree "token_type" ∧ sepFree t from ⟨by constructor <;> decide, hct⟩
    have l1 : lookupLast [("access_token", a), ("expires_in", e), ("refresh_token", r),
        ("refresh_token_expires_in", re), ("scope", sc), ("token_type", t)]
        "access_token" = some a := rfl
    have l2 : lookupLast [("access_token", a), ("expires_in", e), ("refresh_token", r),
        ("refresh_token_expires_in", re), ("scope", sc), ("token_type", t)]
        "expires_in" = some e := rfl
    have l3 : lookupLast [("access_token", a), ("expires_in", e), ("refresh_token", r),
        ("refresh_token_expires_in", re), ("scope", sc), ("token_type", t)]
        "refresh_token" = some r := rfl
    have l4 : lookupLast [("access_token", a), ("expires_in", e), ("refresh_token", r),
        ("refresh_token_expires_in", re), ("scope", sc), ("token_type", t)]
        "refresh_token_expires_in" = some re := rfl
    have l5 : lookupLast [("access_token", a), ("expires_in", e), ("refresh_token", r),
        ("refresh_token_expires_in", re), ("scope", sc), ("token_type", t)]
        "scope" = some sc := rfl
    have l6 : lookupLast [("access_token", a), ("expires_in", e), ("refresh_token", r),
        ("refresh_token_expires_in", re), ("scope", sc), ("token_type", t)]
        "token_type" = some t := rfl
    rw [loginParse_eq, hq, l1, l2, l3, l4, l5, l6]
    simp [hpe, hpre]
  · exact fun s hs => loginParse_no_eq_char s hs

/-- Witness for C1 on the concrete scenario of the specification. -/
theorem C1_witness :
    loginParse (formEncode
        [("access_token", "tok_1"), ("expires_in", "3600"), ("refresh_token", "ref_1"),
         ("refresh_token_expires_in", "604800"), ("scope", "read"), ("token_type", "bearer")])
      = some sampleBundle ∧
    loginParse "not a form body" = none := by
  have h := C1_form_encoded_only "tok_1" "3600" "ref_1" "604800" "read" "bearer" 3600 604800
    (by constructor <;> decide) (by constructor <;> decide) (by constructor <;> decide)
    (by constructor <;> decide) (by constructor <;> decide) (by constructor <;> decide)
    (by decide) (by decide)
  exact ⟨h.1, h.2 "not a form body" (by decide)⟩

/-- Inversion of a successful parse: every field of the produced bundle
comes from a present key of the response (numeric ones through a
successful integer parse). -/
theorem loginParse_some_inv (s : String) (b : CallbackSecondLoginArgs)
    (hb : loginParse s = some b) :
    lookupLast (querify s) "access_token" = some b.access_token ∧
    lookupLast (querify s) "refresh_token" = some b.refresh_token ∧
    lookupLast (querify s) "scope" = some b.scope ∧
    lookupLast (querify s) "token_type" = some b.token_type ∧
    (lookupLast (querify s) "expires_in").bind parseI64 = some b.expires_in ∧
    (lookupLast (querify s) "refresh_token_expires_in").bind parseI64
      = some b.refresh_token_expires_in := by
  cases h1 : lookupLast (querify s) "access_token" with
  | none =>
    have hn := loginParse_none_of_missing s (Or.inl h1)
    rw [hb] at hn
    exact Option.noConfusion hn
  | some a =>
  cases h3 : lookupLast (querify s) "refresh_token" with
  | none =>
    have hn := loginParse_none_of_missing s (Or.inr (Or.inl h3))
    rw [hb] at hn
    exact Option.noConfusion hn
  | some r =>
  cases h5 : lookupLast (querify s) "scope" with
  | none =>
    have hn := loginParse_none_of_missing s (Or.inr (Or.inr (Or.inl h5)))
    rw [hb] at hn
    exact Option.noConfusion hn
  | some sc =>
  cases h6 : lookupLast (querify s) "token_type" with
  | none =>
    have hn := loginParse_none_of_missing s (Or.inr (Or.inr (Or.inr (Or.inl h6))))
    rw [hb] at hn
    exact Option.noConfusion hn
  | some t =>
  cases h2 : lookupLast (querify s) "expires_in" with
  | none =>
    have hn := loginParse_none_of_missing s
      (Or.inr (Or.inr (Or.inr (Or.inr (Or.inl (by rw [h2]; rfl))))))
    rw [hb] at hn
    exact Option.noConfusion hn
  | some e =>
  cases hp1 : parseI64 e with
  | none =>
    have hn := loginParse_none_of_missing s
      (Or.inr (Or.inr (Or.inr (Or.inr (Or.inl (by rw [h2]; simpa using hp1))))))
    rw [hb] at hn
    exact Option.noConfusion hn
  | some ei =>
  cases h4 : lookupLast (querify s) "refresh_token_expires_in" with
  | none =>
    have hn := loginParse_none_of_missing s
      (Or.inr (Or.inr (Or.inr (Or.inr (Or.inr (by rw [h4]; rfl))))))
    rw [hb] at hn
    exact Option.noConfusion hn
  | some re =>
  cases hp2 : parseI64 re with
  | none =>
    have hn := loginParse_none_of_missing s
      (Or.inr (Or.inr (Or.inr (Or.inr (Or.inr (by rw [h4]; simpa using hp2))))))
    rw [hb] at hn
    exact Option.noConfusion hn
  | some rei =>
  have hsome : loginParse s
      = some { access_token := a, expires_in := ei, refresh_token := r,
               refresh_token_expires_in := rei, scope := sc, token_type := t } := by
    rw [loginParse_eq, h1, h2, h3, h4, h5, h6]
    simp [hp1, hp2]
  rw [hsome] at hb
  obtain rfl := Option.some.inj hb
  exact ⟨rfl, rfl, rfl, rfl, by simp [hp1], by simp [hp2]⟩

/-- C8 counterexample: a response with an empty `access_token` value is
accepted, producing a bundle whose `access_token` field is the empty
string — an empty value for a string field is not a parse failure. -/
theorem C8_counterexample :
    loginParse ("access_token=&expires_in=3600&refresh_token=ref_1&"
        ++ "refresh_token_expires_in=604800&scope=read&token_type=bearer")
      = some { access_token := "", expires_in := 3600, refresh_token := "ref_1",
               refresh_token_expires_in := 604800, scope := "read", token_type := "bearer" } := by
  decide

/-- C8 (amended): every bundle produced by a successful exchange has all
six fields present in the response (the numeric ones through a
successful integer parse); an empty value for a numeric field is a
terminal parse failure, but string fields may be empty. -/
theorem C8_fields_present (s : String) :
    (∀ b : CallbackSecondLoginArgs, loginParse s = some b →
      lookupLast (querify s) "access_token" = some b.access_token ∧
      lookupLast (querify s) "refresh_token" = some b.refresh_token ∧
      lookupLast (querify s) "scope" = some b.scope ∧
      lookupLast (querify s) "token_type" = some b.token_type ∧
      (lookupLast (querify s) "expires_in").bind parseI64 = some b.expires_in ∧
      (lookupLast (querify s) "refresh_token_expires_in").bind parseI64
        = some b.refresh_token_expires_in) ∧
    (lookupLast (querify s) "expires_in" = some "" → loginParse s = none) ∧
    (lookupLast (querify s) "refresh_token_expires_in" = some "" → loginParse s = none) := by
  refine ⟨fun b hb => loginParse_some_inv s b hb, fun h => ?_, fun h => ?_⟩
  · exact loginParse_none_of_missing s (Or.inr (Or.inr (Or.inr (Or.inr (Or.inl (by
      rw [h]
      simp [parseI64_empty]))))))
  · exact loginParse_none_of_missing s (Or.inr (Or.inr (Or.inr (Or.inr (Or.inr (by
      rw [h]
      simp [parseI64_empty]))))))

/-- Witness for C8: the inversion applied to the empty-`access_token`
body, and the failure on an empty numeric field. -/
theorem C8_witness :
    lookupLast (querify ("access_token=&expires_in=3600&refresh_token=ref_1&"
        ++ "refresh_token_expires_in=604800&scope=read&token_type=bearer"))
      "access_token" = some "" ∧
    loginParse ("access_token=a&expires_in=&refresh_token=r&"
        ++ "refresh_token_expires_in=604800&scope=read&token_type=bearer") = none := by
  constructor
  · exact ((C8_fields_present _).1
      { access_token := "", expires_in := 3600, refresh_token := "ref_1",
        refresh_token_expires_in := 604800, scope := "read", token_type := "bearer" }
      (by decide)).1
  · exact (C8_fields_present _).2.1 (by decide)

/-- C2: when the durable-store write fails, `login_from_telegram`
returns an error and the handle remains present in the ephemeral handle
store (the whole state is unchanged), so the link can be retried without
re-running the OAuth exchange. -/
theorem C2_write_failure_keeps_handle (tid rid : String) (st : LinkState)
    (b : CallbackSecondLoginArgs) (h : mapGet st.temp rid = some b) :
    (login_from_telegram tid rid st true false).response
        = Except.error StatusCode.INTERNAL_SERVER_ERROR ∧
    (login_from_telegram tid rid st true false).state = st ∧
    mapGet (login_from_telegram tid rid st true false).state.temp rid = some b := by
  refine ⟨?_, ?_, ?_⟩ <;> simp [login_from_telegram, h]

/-- Witness for C2 on a concrete store. -/
theorem C2_witness :
    (login_from_telegram "tg_42" "h1" ⟨[("h1", sampleBundle)], []⟩ true false).response
        = Except.error StatusCode.INTERNAL_SERVER_ERROR ∧
    mapGet (login_from_telegram "tg_42" "h1"
        ⟨[("h1", sampleBundle)], []⟩ true false).state.temp "h1" = some sampleBundle := by
  have h := C2_write_failure_keeps_handle "tg_42" "h1"
    ⟨[("h1", sampleBundle)], []⟩ sampleBundle rfl
  exact ⟨h.1, h.2.2⟩

/-- C3: after a successful linking run for a handle, a second attempt
with the same handle fails with `NOT_FOUND`, exactly the signal an
unknown handle produces — the interface does not distinguish "never
existed" from "already consumed". -/
theorem C3_consumed_handle_not_found (tid tid2 tid3 rid rid2 : String) (st : LinkState)
    (b : CallbackSecondLoginArgs) (h : mapGet st.temp rid = some b)
    (h2 : mapGet st.temp rid2 = none) (conn2 setOk2 conn3 setOk3 : Bool) :
    (login_from_telegram tid2 rid (login_from_telegram tid rid st true true).state
        conn2 setOk2).response = Except.error StatusCode.NOT_FOUND ∧
    (login_from_telegram tid3 rid2 st conn3 setOk3).response
        = Except.error StatusCode.NOT_FOUND := by
  constructor
  · have hrun : (login_from_telegram tid rid st true true).state
        = ⟨mapRemove st.temp rid, redisSet st.redis tid (serializeBundle b)⟩ := by
      simp [login_from_telegram, h]
    rw [hrun]
    simp [login_from_telegram, mapGet_mapRemove_self]
  · simp [login_from_telegram, h2]

/-- Witness for C3 on a concrete store. -/
theorem C3_witness :
    (login_from_telegram "tg_2" "h1"
        (login_from_telegram "tg_42" "h1" ⟨[("h1", sampleBundle)], []⟩ true true).state
        true true).response = Except.error StatusCode.NOT_FOUND ∧
    (login_from_telegram "tg_3" "missing" ⟨[("h1", sampleBundle)], []⟩ true true).response
        = Except.error StatusCode.NOT_FOUND := by
  have h := C3_consumed_handle_not_found "tg_42" "tg_2" "tg_3" "h1" "missing"
    ⟨[("h1", sampleBundle)], []⟩ sampleBundle rfl rfl true true true true
  exact ⟨h.1, h.2⟩

/-- C4 counterexample: with the correct secret, a key absent from the
store is rejected with `INTERNAL_SERVER_ERROR` — the very same response
as a wrong secret, a missing secret, and an unavailable connection, so
the not-found failure is not distinct in the response. -/
theorem C4_counterexample :
    get_token "tg_42" (some "s3cret") "s3cret" true []
        = Except.error StatusCode.INTERNAL_SERVER_ERROR ∧
    get_token "tg_42" (some "wrong") "s3cret" true []
        = get_token "tg_42" (some "s3cret") "s3cret" true [] ∧
    get_token "tg_42" none "s3cret" true []
        = get_token "tg_42" (some "s3cret") "s3cret" true [] ∧
    get_token "tg_42" (some "s3cret") "s3cret" false []
        = get_token "tg_42" (some "s3cret") "s3cret" true [] := by
  exact ⟨rfl, rfl, rfl, rfl⟩

/-- C4 (amended): with the correct secret, a key absent from the store
yields a failure, but it is reported with the same
`INTERNAL_SERVER_ERROR` signal as the auth-failure and
connection-unavailable cases; the distinction exists only in the
server-side log, not in the response. -/
theorem C4_missing_key_same_signal (id secretCfg : String) (redis : RedisStore)
    (h : redisGet redis id = none) :
    get_token id (some secretCfg) secretCfg true redis
        = Except.error StatusCode.INTERNAL_SERVER_ERROR ∧
    get_token id (some secretCfg) secretCfg true redis
        = get_token id none secretCfg true redis ∧
    get_token id (some secretCfg) secretCfg true redis
        = get_token id (some secretCfg) secretCfg false redis := by
  refine ⟨?_, ?_, ?_⟩ <;> simp [get_token, h]

/-- Witness for C4 on an empty store. -/
theorem C4_witness :
    get_token "tg_42" (some "s3cret") "s3cret" true []
        = Except.error StatusCode.INTERNAL_SERVER_ERROR ∧
    get_token "tg_42" (some "s3cret") "s3cret" true []
        = get_token "tg_42" none "s3cret" true [] := by
  have h := C4_missing_key_same_signal "tg_42" "s3cret" [] rfl
  exact ⟨h.1, h.2.1⟩

/-- C5: a request to `get_token` whose secret header is absent or not
exactly the configured secret is rejected with the same failure response
in both cases, and the rejection does not depend on the contents of the
durable store (in particular not on whether the key exists). -/
theorem C5_secret_gate_rejects (id wrong secretCfg : String) (hw : wrong ≠ secretCfg)
    (conn : Bool) (redis redis2 : RedisStore) :
    get_token id (some wrong) secretCfg conn redis
        = Except.error StatusCode.INTERNAL_SERVER_ERROR ∧
    get_token id none secretCfg conn redis
        = Except.error StatusCode.INTERNAL_SERVER_ERROR ∧
    get_token id (some wrong) secretCfg conn redis
        = get_token id (some wrong) secretCfg conn redis2 ∧
    get_token id none secretCfg conn redis
        = get_token id none secretCfg conn redis2 := by
  refine ⟨?_, ?_, ?_, ?_⟩ <;> simp [get_token, hw]

/-- Witness for C5: wrong and missing secret on a store that does hold
the key. -/
theorem C5_witness :
    get_token "tg_42" (some "bad") "good" true [("tg_42", "record")]
        = Except.error StatusCode.INTERNAL_SERVER_ERROR ∧
    get_token "tg_42" none "good" true [("tg_42", "record")]
        = Except.error StatusCode.INTERNAL_SERVER_ERROR := by
  have h := C5_secret_gate_rejects "tg_42" "bad" "good" (by decide) true
    [("tg_42", "record")] []
  exact ⟨h.1, h.2.1⟩

/-- C9: whatever the random source yields, the generated handle is
exactly 20 characters long and every character is drawn from the
62-symbol alphanumeric table. -/
theorem C9_handle_shape (f : Nat → Fin 62) :
    (genHandle f).length = 20 ∧
    ∀ c ∈ (genHandle f).toList, c ∈ alphanumericTable := by
  constructor
  · rw [genHandle, length_mk]
    simp
  · intro c hc
    rw [genHandle, toList_mk] at hc
    rcases List.mem_map.mp hc with ⟨i, _, hi⟩
    rw [← hi]
    exact List.get_mem _ _ _

/-- Witness for C9 at a constant random source. -/
theorem C9_witness :
    (genHandle (fun _ => (0 : Fin 62))).length = 20 ∧ 'A' ∈ alphanumericTable :=
  ⟨(C9_handle_shape (fun _ => (0 : Fin 62))).1,
   (C9_handle_shape (fun _ => (0 : Fin 62))).2 'A' (by decide)⟩

end Minzhengbu
